import Mathlib

/-!
Shallow embedding of the libvirt VM control plane (src/vmcli.py and
src/handlers.py).  Hypervisor calls that can fail are modelled through an
explicit environment `Hyper` that records the defined domains, the virtual
networks with their DHCP lease tables, and fault-injection fields for each
libvirt primitive that the source wraps in a try/except.  Each Python
function becomes a Lean function returning an `Outcome`: the Python return
value (or an uncaught exception), how many times `libvirt.open` succeeded,
how many times `conn.close()` ran, and the XML document passed to
`defineXML` / `snapshotCreateXML` when that call was reached.
-/

/-- One DHCP lease of a virtual network: hardware identity and IP address. -/
structure Lease where
  mac : String
  ipaddr : String
deriving DecidableEq

/-- A defined domain as the hypervisor sees it: name, active flag, and the
interface MAC addresses appearing in its XML descriptor. -/
structure DomainInfo where
  name : String
  active : Bool
  macs : List String
deriving DecidableEq

/-- A `libvirt.libvirtError`: either a lookup "not found" failure or any
other (e.g. connection-level) failure, carrying the diagnostic text. -/
inductive LibvirtErr where
  | notFound (msg : String)
  | other (msg : String)
deriving DecidableEq

/-- The diagnostic text of an error, `str(e)` in the source. -/
def LibvirtErr.msg : LibvirtErr → String
  | .notFound m => m
  | .other m => m

/-- The hypervisor environment: state visible through the connection plus
fault injection for each primitive the source guards with try/except.
`lookupErr` injects a non-not-found (connection-level) failure into
`lookupByName`; the others make the correspondingly named libvirt call
raise with the given diagnostic. -/
structure Hyper where
  domains : List DomainInfo
  networks : List (String × List Lease)
  openErr : Option String
  lookupErr : Option String
  defineErr : Option String
  startErr : Option String
  shutdownErr : Option String
  destroyErr : Option String
  undefineErr : Option String
  snapshotErr : Option String

/-- A Python return value as the callers of these functions see it: a
string, or `None`. -/
inductive PyRet where
  | vstr (s : String)
  | vnone
deriving DecidableEq

/-- Result of running one modelled operation: the returned value (`.error`
means a libvirtError escaped the function uncaught), the number of
successful `libvirt.open` calls, the number of `conn.close()` calls, and
the XML document submitted to `defineXML`/`snapshotCreateXML`, if any. -/
structure Outcome where
  ret : Except LibvirtErr PyRet
  opens : Nat
  closes : Nat
  submittedDoc : Option String

/-- `conn.lookupByName(name)`: raises notFound when no defined domain has
the name; `lookupErr` injects any other libvirtError (connection dropped,
endpoint failure, ...). -/
def lookupByName (h : Hyper) (name : String) : Except LibvirtErr DomainInfo :=
  match h.lookupErr with
  | some m => .error (.other m)
  | none =>
    match h.domains.find? (fun d => d.name == name) with
    | some d => .ok d
    | none => .error (.notFound ("Domain not found: " ++ name))

/-- `conn.networkLookupByName(net)` followed by `network.DHCPLeases()`:
yields the lease table, or notFound when the network does not exist. -/
def networkLookup (h : Hyper) (net : String) : Except LibvirtErr (List Lease) :=
  match h.networks.find? (fun p => p.fst == net) with
  | some p => .ok p.snd
  | none => .error (.notFound ("Network not found: " ++ net))

/-- Python `s.lower()` on the ASCII strings handled here (MAC addresses):
lowercase every character. -/
def strLower (s : String) : String :=
  String.mk (s.data.map Char.toLower)

/-- The lease-matching test of `get_vm_ip` in both modules: the descriptor
MACs are lowercased at extraction time, and each lease MAC is lowercased
before the membership test. -/
def leaseMatches (descMacs : List String) (l : Lease) : Bool :=
  (descMacs.map strLower).contains (strLower l.mac)

/-- The validity test used by `create_vm` in src/vmcli.py:
`any(c in s for c in "<>&'\"")`. -/
def hasSpecial (s : String) : Bool :=
  "<>&'\"".data.any (fun c => s.data.contains c)

/-- One lowercase hexadecimal digit, as produced by Python `"%02x"`. -/
def hexDigit (n : Nat) : Char :=
  if n < 10 then Char.ofNat (48 + n) else Char.ofNat (97 + (n - 10))

/-- Two lowercase hexadecimal digits of a byte, Python `"%02x" % x`. -/
def byteHex (n : Nat) : String :=
  String.mk [hexDigit (n / 16 % 16), hexDigit (n % 16)]

/-- `generate_mac` from src/vmcli.py.  The three `random.randint` draws are
passed in explicitly: `r4` is drawn from `[0x00, 0x7f]`, `r5` and `r6`
from `[0x00, 0xff]`. -/
def generate_mac (r4 r5 r6 : Nat) : String :=
  String.intercalate (":") ([0x52, 0x54, 0x00, r4, r5, r6].map byteHex)

/-- The fixed MAC address hard-coded in the `create_vm` handler of
src/handlers.py. -/
def handlersFixedMac : String := "52:54:00:0c:94:61"

/-- The part of the handlers' domain XML f-string before the MAC address. -/
def handlersXmlHead (name : String) (cores memory : Int) (path : String) : String :=
  "\n        <domain type='kvm'>\n          <name>" ++ name ++
  "</name>\n          <memory unit='MiB'>" ++ toString memory ++
  "</memory>\n          <vcpu>" ++ toString cores ++
  "</vcpu>\n          <os>\n            <type arch='x86_64'>hvm</type>\n            <boot dev='hd'/>\n          </os>\n          <devices>\n            <disk type='file' device='disk'>\n              <driver name='qemu' type='qcow2'/>\n              <source file='" ++ path ++
  "'/>\n              <target dev='vda' bus='virtio'/>\n            </disk>\n            <console type='pty' tty='/dev/pts/2'>\n            </console>\n            <interface type='network'>\n            <mac address='"

/-- The part of the handlers' domain XML f-string after the MAC address. -/
def handlersXmlTail : String :=
  "'/>\n            <source network='default'/>\n            <model type='virtio'/>\n            </interface>\n          </devices>\n        </domain>\n        "

/-- The domain XML built by `create_vm` in src/handlers.py: user inputs are
interpolated verbatim and the MAC address is the fixed constant. -/
def handlersDomainXml (name : String) (cores memory : Int) (path : String) : String :=
  handlersXmlHead name cores memory path ++ handlersFixedMac ++ handlersXmlTail

/-- The domain XML built by `create_vm` in src/vmcli.py: user inputs and the
generated MAC are interpolated verbatim. -/
def vmcliDomainXml (name : String) (cores memory : Int) (path mac : String) : String :=
  "\n        <domain type='kvm'>\n          <name>" ++ name ++
  "</name>\n          <memory unit='MiB'>" ++ toString memory ++
  "</memory>\n          <vcpu>" ++ toString cores ++
  "</vcpu>\n          <os>\n            <type arch='x86_64'>hvm</type>\n            <boot dev='hd'/>\n          </os>\n          <devices>\n            <disk type='file' device='disk'>\n              <driver name='qemu' type='qcow2'/>\n              <source file='" ++ path ++
  "'/>\n              <target dev='vda' bus='virtio'/>\n            </disk>\n            <console type='pty'/>\n            <interface type='network'>\n              <mac address='" ++ mac ++
  "'/>\n              <source network='default'/>\n              <model type='virtio'/>\n            </interface>\n          </devices>\n        </domain>\n        "

/-- The snapshot XML built by `create_vm_snapshot` in src/vmcli.py (the
handlers module builds the same document with wider indentation): name and
description are interpolated verbatim, with no escaping. -/
def snapshotXml (snapName desc : String) : String :=
  "\n        <domainsnapshot>\n            <name>" ++ snapName ++
  "</name>\n            <description>" ++ desc ++
  "</description>\n        </domainsnapshot>\n        "

/-- `get_vm_ip` from src/vmcli.py.  Every libvirt call sits inside the outer
try, and the `finally` block closes the connection whenever `conn` was set. -/
def vmcliGetVmIp (h : Hyper) (vm net : String) : Outcome :=
  match h.openErr with
  | some m => ⟨.ok (.vstr ("Libvirt error: " ++ m)), 0, 0, none⟩
  | none =>
    match lookupByName h vm with
    | .error e => ⟨.ok (.vstr ("Libvirt error: " ++ e.msg)), 1, 1, none⟩
    | .ok d =>
      let macs := d.macs.map strLower
      if macs.isEmpty then ⟨.ok .vnone, 1, 1, none⟩
      else
        match networkLookup h net with
        | .error e => ⟨.ok (.vstr ("Libvirt error: " ++ e.msg)), 1, 1, none⟩
        | .ok leases =>
          match leases.find? (fun l => macs.contains (strLower l.mac)) with
          | some l => ⟨.ok (.vstr l.ipaddr), 1, 1, none⟩
          | none => ⟨.ok .vnone, 1, 1, none⟩

/-- `get_vm_ip` from src/handlers.py.  Only `libvirt.open` is guarded by a
try/except; `lookupByName` and `networkLookupByName` raise uncaught, and no
path ever calls `conn.close()`. -/
def handlersGetVmIp (h : Hyper) (vm net : String) : Outcome :=
  match h.openErr with
  | some m => ⟨.ok (.vstr ("Libvirt error: " ++ m)), 0, 0, none⟩
  | none =>
    match lookupByName h vm with
    | .error e => ⟨.error e, 1, 0, none⟩
    | .ok d =>
      let macs := d.macs.map strLower
      if macs.isEmpty then ⟨.ok .vnone, 1, 0, none⟩
      else
        match networkLookup h net with
        | .error e => ⟨.error e, 1, 0, none⟩
        | .ok leases =>
          match leases.find? (fun l => macs.contains (strLower l.mac)) with
          | some l => ⟨.ok (.vstr l.ipaddr), 1, 0, none⟩
          | none => ⟨.ok .vnone, 1, 0, none⟩

/-- `shutdown_vm` from src/handlers.py.  The success path executes
`return "OK"` inside the try block, before the `conn.close()` line that
only runs after the except branch; so the connection is closed only when a
libvirtError was caught (which is printed, and the function returns None). -/
def handlersShutdownVm (h : Hyper) (vm : String) : Outcome :=
  match h.openErr with
  | some m => ⟨.ok (.vstr ("Libvirt error: " ++ m)), 0, 0, none⟩
  | none =>
    match lookupByName h vm with
    | .error _ => ⟨.ok .vnone, 1, 1, none⟩
    | .ok d =>
      if d.active then
        match h.shutdownErr with
        | some _ => ⟨.ok .vnone, 1, 1, none⟩
        | none => ⟨.ok (.vstr ("OK")), 1, 0, none⟩
      else ⟨.ok (.vstr ("OK")), 1, 0, none⟩

/-- `destroy_vm` from src/handlers.py.  Same shape as its `shutdown_vm`: a
caught libvirtError is printed, the connection closed and None returned;
the success path returns "OK" before ever reaching `conn.close()`. -/
def handlersDestroyVm (h : Hyper) (vm : String) : Outcome :=
  match h.openErr with
  | some m => ⟨.ok (.vstr ("Libvirt error: " ++ m)), 0, 0, none⟩
  | none =>
    match lookupByName h vm with
    | .error _ => ⟨.ok .vnone, 1, 1, none⟩
    | .ok d =>
      if d.active then
        match h.destroyErr with
        | some _ => ⟨.ok .vnone, 1, 1, none⟩
        | none =>
          match h.undefineErr with
          | some _ => ⟨.ok .vnone, 1, 1, none⟩
          | none => ⟨.ok (.vstr ("OK")), 1, 0, none⟩
      else
        match h.undefineErr with
        | some _ => ⟨.ok .vnone, 1, 1, none⟩
        | none => ⟨.ok (.vstr ("OK")), 1, 0, none⟩

/-- `create_vm` from src/vmcli.py.  Validation runs before any libvirt
call; the pre-existence check catches every libvirtError from
`lookupByName` and proceeds (`except libvirt.libvirtError: pass`); the
`finally` block closes the connection on every path after a successful
open.  (The `if domain is None` branch of the source is dead: the python
binding's `defineXML` raises on failure rather than returning None, which
is modelled by `defineErr`.)  `r4 r5 r6` are the random draws consumed by
`generate_mac`. -/
def vmcliCreateVm (h : Hyper) (name : String) (cores memory : Int)
    (path : String) (r4 r5 r6 : Nat) : Outcome :=
  if cores < 1 then ⟨.ok (.vstr ("Invalid number of CPU cores.")), 0, 0, none⟩
  else if memory < 128 then
    ⟨.ok (.vstr ("Invalid memory size. Must be at least 128 MiB.")), 0, 0, none⟩
  else if name.isEmpty || hasSpecial name then
    ⟨.ok (.vstr ("Invalid VM name.")), 0, 0, none⟩
  else if path.isEmpty || hasSpecial path then
    ⟨.ok (.vstr ("Invalid disk image path.")), 0, 0, none⟩
  else
    match h.openErr with
    | some m => ⟨.ok (.vstr ("Libvirt error: " ++ m)), 0, 0, none⟩
    | none =>
      match lookupByName h name with
      | .ok _ => ⟨.ok (.vstr ("VM '" ++ name ++ "' already exists.")), 1, 1, none⟩
      | .error _ =>
        let xml := vmcliDomainXml name cores memory path (generate_mac r4 r5 r6)
        match h.defineErr with
        | some m => ⟨.ok (.vstr ("Libvirt error: " ++ m)), 1, 1, some xml⟩
        | none =>
          match h.startErr with
          | some m => ⟨.ok (.vstr ("Libvirt error (create): " ++ m)), 1, 1, some xml⟩
          | none => ⟨.ok (.vstr ("OK")), 1, 1, some xml⟩

/-- Hypervisor verdict on `conn.defineXML(xml)` for a document whose name
element holds `name` and which carries no uuid element: libvirt assigns a
fresh uuid at parse time and refuses to define a domain whose name is
already taken by a domain with a different uuid, so a duplicate name is
always refused here (the real diagnostic also carries the existing
domain's uuid, which this model does not track); `defineErr` injects any
other failure of the call. -/
def defineXMLResult (h : Hyper) (name : String) : Option String :=
  match h.domains.find? (fun d => d.name == name) with
  | some _ => some ("operation failed: domain '" ++ name ++ "' already exists")
  | none => h.defineErr

/-- `create_vm` from src/handlers.py.  No input validation, no existence
pre-check of its own (the source marks it TODO), a fixed MAC address; only
`open` and `defineXML` are guarded, `domain.create()` raises uncaught, and
the error return after `defineXML` skips `conn.close()`.  The `defineXML`
call itself is refused by the hypervisor when the name is already defined
(`defineXMLResult`). -/
def handlersCreateVm (h : Hyper) (name : String) (cores memory : Int)
    (path : String) : Outcome :=
  match h.openErr with
  | some m => ⟨.ok (.vstr ("Libvirt error: " ++ m)), 0, 0, none⟩
  | none =>
    let xml := handlersDomainXml name cores memory path
    match defineXMLResult h name with
    | some m => ⟨.ok (.vstr ("Libvirt error: " ++ m)), 1, 0, some xml⟩
    | none =>
      match h.startErr with
      | some m => ⟨.error (.other m), 1, 0, some xml⟩
      | none => ⟨.ok (.vstr ("OK")), 1, 1, some xml⟩

/-- `create_vm_snapshot` from src/vmcli.py: no validation or escaping of
the snapshot name or description; the `finally` block closes the
connection on every path after a successful open. -/
def vmcliCreateVmSnapshot (h : Hyper) (vm snapName desc : String) : Outcome :=
  match h.openErr with
  | some m => ⟨.ok (.vstr ("Libvirt error: " ++ m)), 0, 0, none⟩
  | none =>
    match lookupByName h vm with
    | .error e => ⟨.ok (.vstr ("Libvirt error: " ++ e.msg)), 1, 1, none⟩
    | .ok _ =>
      let xml := snapshotXml snapName desc
      match h.snapshotErr with
      | some m => ⟨.ok (.vstr ("Libvirt error: " ++ m)), 1, 1, some xml⟩
      | none => ⟨.ok (.vstr ("OK")), 1, 1, some xml⟩

/-- A fault-free hypervisor environment with the given domains and
networks. -/
def noFault (doms : List DomainInfo) (nets : List (String × List Lease)) : Hyper :=
  ⟨doms, nets, none, none, none, none, none, none, none, none⟩

/-- Environment with no defined domain and an empty default network. -/
def hypEmpty : Hyper := noFault [] [(("default"), [])]

/-- Environment with one active domain named vm1. -/
def hypOneActive : Hyper :=
  noFault [⟨("vm1"), true, [("52:54:00:0c:94:61")]⟩] [(("default"), [])]

/-- Environment with one inactive domain named vm1. -/
def hypOneInactive : Hyper :=
  noFault [⟨("vm1"), false, [("52:54:00:0c:94:61")]⟩] [(("default"), [])]

/-- List-level prefix test used by the MAC extraction helper below. -/
def startsWithL : List Char → List Char → Bool
  | _, [] => true
  | [], _ :: _ => false
  | a :: s, b :: t => a == b && startsWithL s t

/-- The suffix of a character list after the first occurrence of a pattern,
or none when the pattern does not occur. -/
def afterFirst (pat : List Char) : List Char → Option (List Char)
  | [] => none
  | a :: s =>
    if startsWithL (a :: s) pat then some ((a :: s).drop pat.length)
    else afterFirst pat s

/-- The characters before the first single-quote character (U+0027). -/
def upToQuote : List Char → List Char
  | [] => []
  | a :: s => if a == Char.ofNat 39 then [] else a :: upToQuote s

/-- The MAC address carried by a domain XML document: the text between the
first occurrence of the mac-address attribute opener and the closing
quote. -/
def macAddrOf (doc : String) : Option String :=
  (afterFirst (("<mac address='").data) doc.data).map (fun s => String.mk (upToQuote s))

/-- The proposition that a returned value is one of the four validation
messages of `create_vm` in src/vmcli.py. -/
def isValidationError (r : Except LibvirtErr PyRet) : Prop :=
  r = .ok (.vstr ("Invalid number of CPU cores."))
  ∨ r = .ok (.vstr ("Invalid memory size. Must be at least 128 MiB."))
  ∨ r = .ok (.vstr ("Invalid VM name."))
  ∨ r = .ok (.vstr ("Invalid disk image path."))

/-- Environment with one active domain named vm1 whose lease in the default
network records the MAC in upper case, exercising case-insensitive
matching. -/
def hypLease : Hyper :=
  noFault [⟨("vm1"), true, [("52:54:00:0c:94:61")]⟩]
    [(("default"), [⟨("52:54:00:0C:94:61"), ("192.168.122.50")⟩])]

/-- Environment with one active domain that has no network interface. -/
def hypNoMacs : Hyper := noFault [⟨("vm0"), true, []⟩] [(("default"), [])]

/-- Environment in which `lookupByName` fails with a connection-level error
rather than not-found. -/
def hypLookupFault : Hyper :=
  ⟨[], [(("default"), [])], none, some ("Cannot recv data: Connection reset by peer"),
    none, none, none, none, none, none⟩

/-- A list's `find?` returns the element at index `i` when that element
satisfies the predicate and no earlier element does. -/
theorem find?_eq_some_first {α : Type} (p : α → Bool) :
    ∀ (l : List α) (i : Nat) (hi : i < l.length),
      p (l.get ⟨i, hi⟩) = true →
      (∀ j, j < i → ∀ (hj : j < l.length), p (l.get ⟨j, hj⟩) = false) →
      l.find? p = some (l.get ⟨i, hi⟩)
  | [], i, hi => by exact absurd hi (by simp)
  | a :: t, 0, hi => by
    intro hp _
    simpa [List.find?] using hp ▸ rfl
  | a :: t, k + 1, hi => by
    intro hp hmin
    have h0 : p a = false := hmin 0 (Nat.succ_pos k) (by simp)
    have ht := find?_eq_some_first p t k (Nat.lt_of_succ_lt_succ hi) hp
      (fun j hj hjl => hmin (j + 1) (Nat.succ_lt_succ hj) (Nat.succ_lt_succ hjl))
    simp [List.find?, h0, ht]

/-- C1 (amended): in the CLI module, any name or disk path containing one of
the markup-special characters makes create-vm return a validation error
with no connection opened and no configuration document built or
submitted.  (The handlers module performs no such validation; see the
counterexample.) -/
theorem c1_cli_validation (h : Hyper) (name : String) (cores memory : Int)
    (path : String) (r4 r5 r6 : Nat)
    (hbad : hasSpecial name = true ∨ hasSpecial path = true) :
    (vmcliCreateVm h name cores memory path r4 r5 r6).opens = 0
    ∧ (vmcliCreateVm h name cores memory path r4 r5 r6).submittedDoc = none
    ∧ isValidationError (vmcliCreateVm h name cores memory path r4 r5 r6).ret := by
  by_cases h1 : cores < 1
  · simp [vmcliCreateVm, h1, isValidationError]
  by_cases h2 : memory < 128
  · simp [vmcliCreateVm, h1, h2, isValidationError]
  by_cases h3 : (name.isEmpty || hasSpecial name) = true
  · simp [vmcliCreateVm, h1, h2, h3, isValidationError]
  · have h4 : (path.isEmpty || hasSpecial path) = true := by
      cases hbad with
      | inl hb => exact absurd (by simp [hb]) h3
      | inr hb => simp [hb]
    simp [vmcliCreateVm, h1, h2, h3, h4, isValidationError]

/-- C1 witness: a name containing a less-than sign is rejected by the CLI
create-vm before any connection or document. -/
theorem c1_witness :
    (vmcliCreateVm hypEmpty ("bad<name") 2 512 ("/img.qcow2") 1 2 3).opens = 0
    ∧ (vmcliCreateVm hypEmpty ("bad<name") 2 512 ("/img.qcow2") 1 2 3).submittedDoc = none
    ∧ isValidationError (vmcliCreateVm hypEmpty ("bad<name") 2 512 ("/img.qcow2") 1 2 3).ret :=
  c1_cli_validation hypEmpty ("bad<name") 2 512 ("/img.qcow2") 1 2 3 (Or.inl (by decide))

/-- C1 counterexample: the create-vm operation of the handlers module,
given a name containing a markup-special character, builds the
configuration document, submits it to defineXML, and returns OK: no
validation error is raised before the document is built. -/
theorem c1_counterexample :
    (handlersCreateVm hypEmpty ("bad<name") 2 512 ("/img.qcow2")).ret = .ok (.vstr ("OK"))
    ∧ (handlersCreateVm hypEmpty ("bad<name") 2 512 ("/img.qcow2")).submittedDoc
        = some (handlersDomainXml ("bad<name") 2 512 ("/img.qcow2")) :=
  ⟨rfl, rfl⟩

/-- C2: the shutdown operation of the handlers module returns OK from inside
the try block before the conn.close() line ever runs, leaving the opened
connection unreleased (1 acquisition, 0 releases); its get-vm-ip never
closes the connection on any path. -/
theorem c2_handlers_shutdown_leaks :
    (handlersShutdownVm hypOneActive ("vm1")).ret = .ok (.vstr ("OK"))
    ∧ (handlersShutdownVm hypOneActive ("vm1")).opens = 1
    ∧ (handlersShutdownVm hypOneActive ("vm1")).closes = 0
    ∧ (handlersGetVmIp hypOneActive ("vm1") ("default")).opens = 1
    ∧ (handlersGetVmIp hypOneActive ("vm1") ("default")).closes = 0 :=
  ⟨rfl, rfl, rfl, rfl, rfl⟩

/-- C3: destroy in the handlers module, on a name that resolves to no
domain, catches the not-found libvirtError, prints it, and returns Python
None: the caller receives neither an error result nor the diagnostic
text. -/
theorem c3_handlers_destroy_swallows :
    (handlersDestroyVm hypOneActive ("does-not-exist")).ret = .ok .vnone
    ∧ (handlersDestroyVm hypOneActive ("does-not-exist")).opens = 1
    ∧ (handlersDestroyVm hypOneActive ("does-not-exist")).closes = 1 :=
  ⟨rfl, rfl, rfl⟩

/-- C4: with a domain of the given name already defined, create fails with
an already-exists error in both modules and does not overwrite the
existing definition: the CLI module returns its own already-exists message
from the pre-existence lookup without submitting any document, and the
handlers module's unconditional defineXML is refused by the hypervisor
(the document carries no uuid), whose diagnostic the handler returns. -/
theorem c4_create_fails_when_exists (h : Hyper) (name : String)
    (cores memory : Int) (path : String) (r4 r5 r6 : Nat) (d : DomainInfo)
    (hc : ¬ cores < 1) (hm : ¬ memory < 128)
    (hn1 : name.isEmpty = false) (hn2 : hasSpecial name = false)
    (hp1 : path.isEmpty = false) (hp2 : hasSpecial path = false)
    (hopen : h.openErr = none) (hlk : h.lookupErr = none)
    (hdom : h.domains.find? (fun x => x.name == name) = some d) :
    (vmcliCreateVm h name cores memory path r4 r5 r6).ret
      = .ok (.vstr ("VM '" ++ name ++ "' already exists."))
    ∧ (vmcliCreateVm h name cores memory path r4 r5 r6).submittedDoc = none
    ∧ (handlersCreateVm h name cores memory path).ret
      = .ok (.vstr ("Libvirt error: operation failed: domain '" ++ name ++ "' already exists")) := by
  have hlook : lookupByName h name = .ok d := by
    simp [lookupByName, hlk, hdom]
  have hdef : defineXMLResult h name
      = some ("operation failed: domain '" ++ name ++ "' already exists") := by
    simp [defineXMLResult, hdom]
  refine ⟨?_, ?_, ?_⟩
  · simp [vmcliCreateVm, hc, hm, hn1, hn2, hp1, hp2, hopen, hlook]
  · simp [vmcliCreateVm, hc, hm, hn1, hn2, hp1, hp2, hopen, hlook]
  · simp only [handlersCreateVm, hopen, hdef]
    rfl

/-- C4 witness: creating vm1 while vm1 is already defined fails in both
modules with an already-exists error. -/
theorem c4_witness :
    (vmcliCreateVm hypOneInactive ("vm1") 2 512 ("/x.qcow2") 1 2 3).ret
      = .ok (.vstr ("VM 'vm1' already exists."))
    ∧ (vmcliCreateVm hypOneInactive ("vm1") 2 512 ("/x.qcow2") 1 2 3).submittedDoc = none
    ∧ (handlersCreateVm hypOneInactive ("vm1") 2 512 ("/x.qcow2")).ret
      = .ok (.vstr ("Libvirt error: operation failed: domain 'vm1' already exists")) :=
  c4_create_fails_when_exists hypOneInactive ("vm1") 2 512 ("/x.qcow2") 1 2 3
    ⟨("vm1"), false, [("52:54:00:0c:94:61")]⟩
    (by decide) (by decide) rfl (by decide) rfl (by decide) rfl rfl rfl

/-- C5 (amended): the CLI's generate_mac keeps the fixed three-byte prefix
and varies only the last three bytes, the fourth byte's leading hex digit
staying below 8 because that byte is drawn from 0x00 to 0x7f; the
handlers module does not generate an identity at all but embeds the fixed
MAC 52:54:00:0c:94:61 into every created VM. -/
theorem c5_mac_generation (r4 r5 r6 : Nat)
    (h4 : r4 ≤ 0x7f) (h5 : r5 ≤ 0xff) (h6 : r6 ≤ 0xff) :
    generate_mac r4 r5 r6
      = "52:54:00:" ++ byteHex r4 ++ ":" ++ byteHex r5 ++ ":" ++ byteHex r6
    ∧ (byteHex r4).data.head? = some (hexDigit (r4 / 16))
    ∧ r4 / 16 < 8
    ∧ (∀ (name : String) (cores memory : Int) (path : String),
        handlersDomainXml name cores memory path
          = handlersXmlHead name cores memory path ++ handlersFixedMac ++ handlersXmlTail) := by
  refine ⟨rfl, ?_, by omega, fun _ _ _ _ => rfl⟩
  have hlt : r4 / 16 < 16 := by omega
  simp [byteHex, Nat.mod_eq_of_lt hlt]

/-- C5 witness: the generated identity at a sample draw decomposes into the
fixed prefix followed by the three random bytes. -/
theorem c5_witness :
    generate_mac 0x3a 0xbc 0x01
      = "52:54:00:" ++ byteHex 0x3a ++ ":" ++ byteHex 0xbc ++ ":" ++ byteHex 0x01 :=
  (c5_mac_generation 0x3a 0xbc 0x01 (by decide) (by decide) (by decide)).1

set_option maxRecDepth 10000

/-- C5 counterexample: the hardware identities embedded in the configuration
documents of two distinct VMs created through the handlers module are the
same fixed address, so identities are not drawn from a random source and
do collide across created VMs. -/
theorem c5_counterexample :
    macAddrOf (handlersDomainXml ("vmA") 2 512 ("/a.qcow2")) = some (handlersFixedMac)
    ∧ macAddrOf (handlersDomainXml ("vmB") 4 1024 ("/b.qcow2")) = some (handlersFixedMac)
    ∧ handlersFixedMac = "52:54:00:0c:94:61" := by
  refine ⟨by decide, by decide, rfl⟩

/-- C6 (amended): in the CLI module, cores below one or memory below 128
makes create-vm return the corresponding validation error with no
connection opened and no document built.  (The handlers module opens a
connection regardless; see the counterexample.) -/
theorem c6_cli_resource_validation (h : Hyper) (name : String) (cores memory : Int)
    (path : String) (r4 r5 r6 : Nat)
    (hbad : cores < 1 ∨ memory < 128) :
    (vmcliCreateVm h name cores memory path r4 r5 r6).opens = 0
    ∧ (vmcliCreateVm h name cores memory path r4 r5 r6).closes = 0
    ∧ (vmcliCreateVm h name cores memory path r4 r5 r6).submittedDoc = none
    ∧ ((vmcliCreateVm h name cores memory path r4 r5 r6).ret
          = .ok (.vstr ("Invalid number of CPU cores."))
       ∨ (vmcliCreateVm h name cores memory path r4 r5 r6).ret
          = .ok (.vstr ("Invalid memory size. Must be at least 128 MiB."))) := by
  by_cases h1 : cores < 1
  · simp [vmcliCreateVm, h1]
  · have h2 : memory < 128 := by
      cases hbad with
      | inl hb => exact absurd hb h1
      | inr hb => exact hb
    simp [vmcliCreateVm, h1, h2]

/-- C6 witness: zero cores is rejected by the CLI create-vm with no
connection opened. -/
theorem c6_witness :
    (vmcliCreateVm hypEmpty ("vm1") 0 64 ("/img.qcow2") 1 2 3).opens = 0
    ∧ (vmcliCreateVm hypEmpty ("vm1") 0 64 ("/img.qcow2") 1 2 3).closes = 0
    ∧ (vmcliCreateVm hypEmpty ("vm1") 0 64 ("/img.qcow2") 1 2 3).submittedDoc = none
    ∧ ((vmcliCreateVm hypEmpty ("vm1") 0 64 ("/img.qcow2") 1 2 3).ret
        = .ok (.vstr ("Invalid number of CPU cores."))
       ∨ (vmcliCreateVm hypEmpty ("vm1") 0 64 ("/img.qcow2") 1 2 3).ret
        = .ok (.vstr ("Invalid memory size. Must be at least 128 MiB."))) :=
  c6_cli_resource_validation hypEmpty ("vm1") 0 64 ("/img.qcow2") 1 2 3 (Or.inl (by decide))

/-- C6 counterexample: the handlers create-vm, given zero cores and 64 MiB,
opens a hypervisor connection, submits the document, and returns OK with
no validation error. -/
theorem c6_counterexample :
    (handlersCreateVm hypEmpty ("vm1") 0 64 ("/img.qcow2")).opens = 1
    ∧ (handlersCreateVm hypEmpty ("vm1") 0 64 ("/img.qcow2")).ret = .ok (.vstr ("OK"))
    ∧ (handlersCreateVm hypEmpty ("vm1") 0 64 ("/img.qcow2")).submittedDoc
        = some (handlersDomainXml ("vm1") 0 64 ("/img.qcow2")) :=
  ⟨rfl, rfl, rfl⟩

/-- C7: in IP resolution (both modules), descriptor and lease MACs are
compared after lowercasing both sides, and when some lease matches, the IP
returned is that of the first matching lease in lease-table order; any two
MAC spellings with equal lowercase forms match. -/
theorem c7_first_match_case_insensitive (h : Hyper) (vm net : String)
    (d : DomainInfo) (leases : List Lease) (i : Nat) (hi : i < leases.length)
    (hopen : h.openErr = none) (hlk : h.lookupErr = none)
    (hdom : h.domains.find? (fun x => x.name == vm) = some d)
    (hmacs : d.macs ≠ [])
    (hnet : networkLookup h net = .ok leases)
    (hmatch : leaseMatches d.macs (leases.get ⟨i, hi⟩) = true)
    (hfirst : ∀ j, j < i → ∀ (hj : j < leases.length),
        leaseMatches d.macs (leases.get ⟨j, hj⟩) = false) :
    (vmcliGetVmIp h vm net).ret = .ok (.vstr ((leases.get ⟨i, hi⟩).ipaddr))
    ∧ (handlersGetVmIp h vm net).ret = .ok (.vstr ((leases.get ⟨i, hi⟩).ipaddr))
    ∧ ∀ s t ip, strLower s = strLower t → leaseMatches [s] ⟨t, ip⟩ = true := by
  have hlook : lookupByName h vm = .ok d := by
    simp [lookupByName, hlk, hdom]
  have hmac2 : (d.macs.map strLower).isEmpty = false := by
    cases hm : d.macs with
    | nil => exact absurd hm hmacs
    | cons a t => rfl
  have hfind : leases.find?
      (fun l => (d.macs.map strLower).contains (strLower l.mac))
      = some (leases.get ⟨i, hi⟩) :=
    find?_eq_some_first _ leases i hi hmatch hfirst
  refine ⟨?_, ?_, ?_⟩
  · simp only [vmcliGetVmIp, hopen, hlook, hmac2, hnet, hfind]
    rfl
  · simp only [handlersGetVmIp, hopen, hlook, hmac2, hnet, hfind]
    rfl
  · intro s t ip hst
    simp [leaseMatches, hst]

/-- C7 witness: the scenario of the specification, with the lease MAC
spelled in upper case and the descriptor MAC in lower case, resolves to
the lease's IP address. -/
theorem c7_witness :
    (vmcliGetVmIp hypLease ("vm1") ("default")).ret = .ok (.vstr ("192.168.122.50")) :=
  (c7_first_match_case_insensitive hypLease ("vm1") ("default")
    ⟨("vm1"), true, [("52:54:00:0c:94:61")]⟩
    [⟨("52:54:00:0C:94:61"), ("192.168.122.50")⟩] 0 (by decide)
    rfl rfl rfl (by decide) rfl (by decide)
    (fun j hj _ => absurd hj (Nat.not_lt_zero j))).1

/-- C8: IP resolution (both modules) returns Python None, not an error, both
for a VM whose descriptor has no network interface (regardless of the
network's state) and for a VM none of whose interfaces matches any lease
of the resolved network. -/
theorem c8_absent_not_error (h : Hyper) (vm net : String) (d : DomainInfo)
    (hopen : h.openErr = none) (hlk : h.lookupErr = none)
    (hdom : h.domains.find? (fun x => x.name == vm) = some d) :
    (d.macs = [] →
      (vmcliGetVmIp h vm net).ret = .ok .vnone
      ∧ (handlersGetVmIp h vm net).ret = .ok .vnone)
    ∧ (∀ leases, networkLookup h net = .ok leases →
        leases.find? (leaseMatches d.macs) = none →
        (vmcliGetVmIp h vm net).ret = .ok .vnone
        ∧ (handlersGetVmIp h vm net).ret = .ok .vnone) := by
  have hlook : lookupByName h vm = .ok d := by
    simp [lookupByName, hlk, hdom]
  constructor
  · intro hnil
    constructor
    · simp only [vmcliGetVmIp, hopen, hlook, hnil, List.map_nil]
      rfl
    · simp only [handlersGetVmIp, hopen, hlook, hnil, List.map_nil]
      rfl
  · intro leases hnet hnone
    cases hm : d.macs with
    | nil =>
      constructor
      · simp only [vmcliGetVmIp, hopen, hlook, hm, List.map_nil]
        rfl
      · simp only [handlersGetVmIp, hopen, hlook, hm, List.map_nil]
        rfl
    | cons a t =>
      have hmac2 : (d.macs.map strLower).isEmpty = false := by
        rw [hm]; rfl
      have hnone2 : leases.find?
          (fun l => (d.macs.map strLower).contains (strLower l.mac)) = none := by
        simpa [leaseMatches] using hnone
      constructor
      · simp only [vmcliGetVmIp, hopen, hlook, hmac2, hnet, hnone2]
        rfl
      · simp only [handlersGetVmIp, hopen, hlook, hmac2, hnet, hnone2]
        rfl

/-- C8 witness: a VM with no network interface resolves to None. -/
theorem c8_witness :
    (vmcliGetVmIp hypNoMacs ("vm0") ("default")).ret = .ok .vnone :=
  ((c8_absent_not_error hypNoMacs ("vm0") ("default") ⟨("vm0"), true, []⟩ rfl rfl rfl).1 rfl).1

/-- C9: snapshot creation in the CLI module, given a snapshot name and
description containing markup-special characters, neither rejects nor
escapes them: it submits the snapshot document with the raw characters
interpolated verbatim and returns OK.  (The handlers module builds the
same document.) -/
theorem c9_snapshot_injection :
    (vmcliCreateVmSnapshot hypOneInactive ("vm1") ("my<snap") ("a&b")).ret = .ok (.vstr ("OK"))
    ∧ (vmcliCreateVmSnapshot hypOneInactive ("vm1") ("my<snap") ("a&b")).submittedDoc
        = some ("\n        <domainsnapshot>\n            <name>my<snap</name>\n            <description>a&b</description>\n        </domainsnapshot>\n        ") :=
  ⟨rfl, rfl⟩

/-- C10: the CLI create-vm's pre-existence check treats every lookup
failure, including a connection-level error that is not not-found, as
"name available": it discards the error, builds and submits the domain
document, and (with define and start succeeding) returns OK. -/
theorem c10_lookup_error_treated_available (h : Hyper) (name : String)
    (cores memory : Int) (path : String) (r4 r5 r6 : Nat) (m : String)
    (hc : ¬ cores < 1) (hm : ¬ memory < 128)
    (hn1 : name.isEmpty = false) (hn2 : hasSpecial name = false)
    (hp1 : path.isEmpty = false) (hp2 : hasSpecial path = false)
    (hopen : h.openErr = none) (hlk : h.lookupErr = some m)
    (hdef : h.defineErr = none) (hstart : h.startErr = none) :
    (vmcliCreateVm h name cores memory path r4 r5 r6).ret = .ok (.vstr ("OK"))
    ∧ (vmcliCreateVm h name cores memory path r4 r5 r6).submittedDoc
        = some (vmcliDomainXml name cores memory path (generate_mac r4 r5 r6)) := by
  have hlook : lookupByName h name = .error (.other m) := by
    simp [lookupByName, hlk]
  simp [vmcliCreateVm, hc, hm, hn1, hn2, hp1, hp2, hopen, hlook, hdef, hstart]

/-- C10 witness: with the lookup failing on a reset connection, create-vm
still proceeds to define and start the domain and reports OK. -/
theorem c10_witness :
    (vmcliCreateVm hypLookupFault ("vm9") 2 512 ("/img.qcow2") 1 2 3).ret = .ok (.vstr ("OK")) :=
  (c10_lookup_error_treated_available hypLookupFault ("vm9") 2 512 ("/img.qcow2") 1 2 3
    ("Cannot recv data: Connection reset by peer")
    (by decide) (by decide) rfl (by decide) rfl (by decide)
    rfl rfl rfl rfl).1
